import Mathlib

/-
Verification of the safeQueryBuilder statement-construction module
(src/safeQueryBuilder/index.js) via a shallow embedding in Lean 4.
JavaScript values are modelled by `JSVal`, JS objects by association
lists in insertion order, thrown `Error`s by `Except QErr`, and every
builder is translated clause by clause from the source file.
-/

/-- Dynamic JavaScript values as they flow through the builders:
`undefined`, `null`, strings, numbers and arrays. -/
inductive JSVal : Type
  | undefined : JSVal
  | null : JSVal
  | str : String → JSVal
  | num : Int → JSVal
  | arr : List JSVal → JSVal

/-- One constructor per `throw new Error(...)` site of the source file.
The legacy (`L`) and decomposed (`D`) paths use different message texts,
hence distinct constructors. -/
inductive QErr : Type
  | tableNotAllowedL (t : String)
  | noValidColumns
  | joinTableNotAllowedL (t : String)
  | filterColumnNotAllowed (k : String)
  | unsupportedOperator (op k : String)
  | betweenRequires (k : String)
  | groupByNotAllowed (c : String)
  | havingBetweenRequires (k : String)
  | unsupportedHavingOperator (op : String)
  | columnNotAllowedUpdate (k : String)
  | whereColumnNotAllowed (k : String)
  | noValidFieldsUpdate
  | deleteNeedsWhere
  | tableNotAllowedD
  | columnNotAllowed
  | columnNotAllowedWhere
  | columnNotAllowedHaving
  | joinTableNotAllowedD
  | noValidFieldsInsert
  | rowsEmpty
  | noValidColumnsInsert
  | inconsistentRows
  | valueMapNotFunction
deriving DecidableEq

/-- A legacy filter/having condition value: either a bare scalar
(`filters: { col: v }`) or an object `{ value, operator }`. -/
inductive Cond : Type
  | bare : JSVal → Cond
  | obj : JSVal → Option String → Cond

/-- `typeof cond === 'object' ? cond.value : cond` -/
def condValue : Cond → JSVal
  | .bare v => v
  | .obj v _ => v

/-- `typeof cond === 'object' ? (cond.operator || '=') : '='` -/
def condOp : Cond → String
  | .bare _ => "="
  | .obj _ o =>
    match o with
    | none => "="
    | some s => if s = "" then "=" else s

/-- A decomposed-path filter record `{ key, operator, value }`. -/
structure Flt : Type where
  key : String
  operator : String
  value : JSVal

/-- A join specification `{ table, type, on }`; the source's `on`
field is named `onPred` here because `on` is reserved in Lean. -/
structure JoinSpec : Type where
  table : String
  type : Option String := none
  onPred : String

/-- One `orderBy` entry `{ column, dir }` of `selectQuery`. -/
structure OrderSpec : Type where
  column : String
  dir : String

/-- A `{ query, values }` result pair. -/
structure SqlResult : Type where
  query : String
  values : List JSVal

mutual

/-- JS string coercion used by template literals, for the values the
builders interpolate. -/
def jsToString : JSVal → String
  | .undefined => "undefined"
  | .null => "null"
  | .str s => s
  | .num n => toString n
  | .arr xs => jsArrToString xs

/-- JS `Array.prototype.toString`: elements joined with commas. -/
def jsArrToString : List JSVal → String
  | [] => ""
  | [x] => jsToString x
  | x :: y :: xs => jsToString x ++ "," ++ jsArrToString (y :: xs)

end

/-- `value === undefined || value === '' || value === null` -/
def isSkippable : JSVal → Bool
  | .undefined => true
  | .null => true
  | .str s => s == ""
  | _ => false

/-- JS `opt || dflt` for an optional string field (undefined and the
empty string are falsy). -/
def jsOrD (o : Option String) (d : String) : String :=
  match o with
  | none => d
  | some s => if s = "" then d else s

/-- Truthiness of the `groupBy` argument (`null`/`''` are falsy). -/
def strTruthy : Option String → Bool
  | none => false
  | some s => s != ""

/-- JS `offset || 0` over numbers. -/
def jsOr0 (n : Int) : Int := if n = 0 then 0 else n

/-- JS property read `r[k]` on an object modelled as an association
list (missing keys read as `undefined`). -/
def lookupJS (r : List (String × JSVal)) (k : String) : JSVal :=
  match r.find? (fun kv => kv.1 == k) with
  | some kv => kv.2
  | none => .undefined

/-- Number of positional placeholders in a statement text. -/
def countPlaceholders (s : String) : Nat :=
  (s.data.filter (fun c => c == ('?'))).length

/-- ASCII upper-casing of one character (JS `toUpperCase` restricted to
the ASCII operator/type tokens the builders upper-case). -/
def charUp (c : Char) : Char :=
  if 'a' ≤ c ∧ c ≤ 'z' then Char.ofNat (c.toNat - 32) else c

/-- JS `s.toUpperCase()`. -/
def jsUp (s : String) : String := String.mk (s.data.map charUp)

/-- A JS whitespace character (the kinds occurring in statement text). -/
def wsChar (c : Char) : Bool := c == ' ' || c == '\t' || c == '\n' || c == '\r'

/-- JS `s.trim()`: strip whitespace from both ends. -/
def jsTrim (s : String) : String :=
  String.mk (((s.data.dropWhile wsChar).reverse.dropWhile wsChar).reverse)

/-- JS `Array.prototype.join(sep)`. -/
def joinSep (sep : String) : List String → String
  | [] => ""
  | [x] => x
  | x :: y :: rest => x ++ sep ++ joinSep sep (y :: rest)

/-- The characters before the first occurrence of `" AS "`, or `none`
when the string does not contain it. -/
def breakOnAS : List Char → Option (List Char)
  | [] => none
  | c :: rest =>
    if [' ', 'A', 'S', ' '].isPrefixOf (c :: rest) then some []
    else (breakOnAS rest).map (c :: ·)

/- ------------------------------------------------------------------
   Decomposed path: sanitizeColumn, extractFilterValues,
   buildWhereClause, buildJoinClause, buildHavingClause,
   countQuery, buildCountQuerySafe, selectQuery
   ------------------------------------------------------------------ -/

/-- `sanitizeColumn(column, allowedColumns)` -/
def sanitizeColumn (column : String) (allowedColumns : List String) : Except QErr String :=
  if column ∈ allowedColumns then .ok column else .error .columnNotAllowed

/-- Values contributed by one filter record in `extractFilterValues`:
`BETWEEN` with an array pushes slots 0 and 1, `IN` with an array pushes
every element, anything else pushes the value itself. -/
def extractOne (f : Flt) : List JSVal :=
  if f.operator = "BETWEEN" then
    match f.value with
    | .arr xs => [xs.getD 0 .undefined, xs.getD 1 .undefined]
    | v => [v]
  else if f.operator = "IN" then
    match f.value with
    | .arr xs => xs
    | v => [v]
  else [f.value]

/-- `extractFilterValues(filters)` -/
def extractFilterValues (filters : List Flt) : List JSVal :=
  filters.flatMap extractOne

/-- The clause fragment for one record inside `buildWhereClause`'s map
callback (throws on a non-whitelisted column; `IN` calls
`f.value.map`, a TypeError when the value is not an array). -/
def whereClauseFrag (allowedColumns : List String) (f : Flt) : Except QErr String :=
  if f.key ∈ allowedColumns then
    if f.operator = "BETWEEN" then .ok (f.key ++ " BETWEEN ? AND ?")
    else if f.operator = "IN" then
      match f.value with
      | .arr xs => .ok (f.key ++ " IN (" ++ joinSep "," (xs.map fun _ => "?") ++ ")")
      | _ => .error .valueMapNotFunction
    else if f.operator = "LIKE" then .ok (f.key ++ " LIKE ?")
    else if f.operator = "OR LIKE" then .ok (f.key ++ " LIKE ?")
    else .ok (f.key ++ " " ++ f.operator ++ " ?")
  else .error .columnNotAllowedWhere

/-- `buildWhereClause(filters, allowedColumns)` -/
def buildWhereClause (filters : List Flt) (allowedColumns : List String) : Except QErr String :=
  if filters.isEmpty then .ok ""
  else do
    let clauses ← filters.mapM (whereClauseFrag allowedColumns)
    .ok ("WHERE " ++ joinSep " AND " clauses)

/-- One join fragment of `buildJoinClause`; the decomposed default
join type is `INNER` and the type is not upper-cased. -/
def joinFragD (allowedTables : List String) (j : JoinSpec) : Except QErr String :=
  if j.table ∈ allowedTables then
    .ok (jsOrD j.type "INNER" ++ " JOIN " ++ j.table ++ " ON " ++ j.onPred)
  else .error .joinTableNotAllowedD

/-- `buildJoinClause(joins, allowedTables)` -/
def buildJoinClause (joins : List JoinSpec) (allowedTables : List String) : Except QErr String :=
  (joins.mapM (joinFragD allowedTables)).bind fun parts =>
  .ok (joinSep " " parts)

/-- The clause fragment for one record inside `buildHavingClause`. -/
def havingClauseFrag (allowedColumns : List String) (h : Flt) : Except QErr String :=
  if h.key ∈ allowedColumns then
    if h.operator = "BETWEEN" then .ok (h.key ++ " BETWEEN ? AND ?")
    else if h.operator = "IN" then
      match h.value with
      | .arr xs => .ok (h.key ++ " IN (" ++ joinSep "," (xs.map fun _ => "?") ++ ")")
      | _ => .error .valueMapNotFunction
    else .ok (h.key ++ " " ++ h.operator ++ " ?")
  else .error .columnNotAllowedHaving

/-- `buildHavingClause(having, allowedColumns)` -/
def buildHavingClause (having : List Flt) (allowedColumns : List String) : Except QErr String :=
  if having.isEmpty then .ok ""
  else do
    let clauses ← having.mapM (havingClauseFrag allowedColumns)
    .ok ("HAVING " ++ joinSep " AND " clauses)

/-- The `groupBy ? GROUP BY sanitizeColumn(groupBy) : ''` step shared
by `countQuery`, `buildCountQuerySafe` and `selectQuery`. -/
def buildGroupClauseD (groupBy : Option String) (allowedColumns : List String) : Except QErr String :=
  if strTruthy groupBy then
    (sanitizeColumn (groupBy.getD "") allowedColumns).map (fun c => "GROUP BY " ++ c)
  else .ok ""

/-- Arguments of `countQuery` / `buildCountQuerySafe`. -/
structure CountParams : Type where
  table : String
  allowedTables : List String := []
  allowedColumns : List String := []
  joins : List JoinSpec := []
  filters : List Flt := []
  groupBy : Option String := none
  having : List Flt := []

/-- `countQuery({...})` (decomposed count builder). -/
def countQuery (p : CountParams) : Except QErr SqlResult :=
  if p.table ∈ p.allowedTables then
    (buildWhereClause p.filters p.allowedColumns).bind fun whereClause =>
    (buildJoinClause p.joins p.allowedTables).bind fun joinClause =>
    (buildGroupClauseD p.groupBy p.allowedColumns).bind fun groupClause =>
    (buildHavingClause p.having p.allowedColumns).bind fun havingClause =>
    let fullFrom := jsTrim ("FROM " ++ p.table ++ " " ++ joinClause ++ " " ++ whereClause ++ " "
        ++ groupClause ++ " " ++ havingClause)
    let query := if strTruthy p.groupBy then
        "SELECT COUNT(*) as total FROM (SELECT 1 " ++ fullFrom ++ ") AS temp"
      else "SELECT COUNT(1) as total " ++ fullFrom
    .ok ⟨query, extractFilterValues p.filters ++ extractFilterValues p.having⟩
  else .error .tableNotAllowedD

/-- `buildCountQuerySafe({...})` — textually identical body to
`countQuery` in the source. -/
def buildCountQuerySafe (p : CountParams) : Except QErr SqlResult :=
  if p.table ∈ p.allowedTables then
    (buildWhereClause p.filters p.allowedColumns).bind fun whereClause =>
    (buildJoinClause p.joins p.allowedTables).bind fun joinClause =>
    (buildGroupClauseD p.groupBy p.allowedColumns).bind fun groupClause =>
    (buildHavingClause p.having p.allowedColumns).bind fun havingClause =>
    let fullFrom := jsTrim ("FROM " ++ p.table ++ " " ++ joinClause ++ " " ++ whereClause ++ " "
        ++ groupClause ++ " " ++ havingClause)
    let query := if strTruthy p.groupBy then
        "SELECT COUNT(*) as total FROM (SELECT 1 " ++ fullFrom ++ ") AS temp"
      else "SELECT COUNT(1) as total " ++ fullFrom
    .ok ⟨query, extractFilterValues p.filters ++ extractFilterValues p.having⟩
  else .error .tableNotAllowedD

/-- Arguments of `selectQuery`. -/
structure SelectParams : Type where
  table : String
  allowedTables : List String := []
  allowedColumns : List String := []
  columns : List String := ["*"]
  filters : List Flt := []
  joins : List JoinSpec := []
  groupBy : Option String := none
  having : List Flt := []
  orderBy : List OrderSpec := []
  limit : Int := 0
  offset : Int := 0

/-- Final text/values assembly of `selectQuery` once every clause is
built (`LIMIT` is inlined as literal text, only when `limit` is truthy). -/
def selectAssemble (p : SelectParams) (colList joinClause whereClause groupClause havingClause orderClause : String) : SqlResult :=
  let off := jsOr0 p.offset
  let limitClause := if p.limit ≠ 0 then "LIMIT " ++ toString off ++ ", " ++ toString p.limit else ""
  ⟨jsTrim ("SELECT " ++ colList ++ " FROM " ++ p.table ++ " " ++ joinClause ++ " " ++ whereClause
      ++ " " ++ groupClause ++ " " ++ havingClause ++ " " ++ orderClause ++ " " ++ limitClause),
   extractFilterValues p.filters ++ extractFilterValues p.having⟩

/-- `selectQuery({...})` (decomposed select builder). -/
def selectQuery (p : SelectParams) : Except QErr SqlResult :=
  if p.table ∈ p.allowedTables then
    (if "*" ∈ p.columns then (.ok "*" : Except QErr String)
     else (p.columns.mapM (fun c => sanitizeColumn c p.allowedColumns)).map
       (joinSep ", ")).bind fun colList =>
    (buildWhereClause p.filters p.allowedColumns).bind fun whereClause =>
    (buildJoinClause p.joins p.allowedTables).bind fun joinClause =>
    (buildGroupClauseD p.groupBy p.allowedColumns).bind fun groupClause =>
    (buildHavingClause p.having p.allowedColumns).bind fun havingClause =>
    (if ¬ p.orderBy.isEmpty then
        (p.orderBy.mapM (fun o => (sanitizeColumn o.column p.allowedColumns).map
          (fun c => c ++ " " ++ o.dir))).map
          (fun os => "ORDER BY " ++ joinSep ", " os)
      else (.ok "" : Except QErr String)).bind fun orderClause =>
    .ok (selectAssemble p colList joinClause whereClause groupClause havingClause orderClause)
  else .error .tableNotAllowedD

/- ------------------------------------------------------------------
   Legacy path: listDataQuery
   ------------------------------------------------------------------ -/

/-- JS `col.includes(' AS ')`. -/
def hasAS (col : String) : Bool := (breakOnAS col.data).isSome

/-- JS `col.split(' AS ')[0]`: the text before the first `" AS "`, the
whole string when there is none. -/
def asHead (col : String) : String :=
  match breakOnAS col.data with
  | some l => String.mk l
  | none => col

/-- The select-column validation predicate of `listDataQuery`:
`col === '*' || allowedColumns.some(allowed => col === allowed ||
(col.includes(' AS ') && allowedColumns.includes(col.split(' AS ')[0])))`. -/
def validCol (allowedColumns : List String) (col : String) : Bool :=
  col == "*" ||
    allowedColumns.any (fun allowed =>
      col == allowed || (hasAS col && allowedColumns.contains (asHead col)))

/-- One iteration of `listDataQuery`'s WHERE loop over
`Object.entries(filters)`: the column is whitelist-checked, scalar
"no value" conditions are skipped, then the operator switch appends
text and values atomically. -/
def whereStep (allowedColumns : List String) (acc : String × List JSVal) (kv : String × Cond) : Except QErr (String × List JSVal) :=
  if kv.1 ∈ allowedColumns then
    let value := condValue kv.2
    let operator := condOp kv.2
    if isSkippable value then .ok acc
    else
      let opU := jsUp operator
      if opU = "=" then .ok (acc.1 ++ " AND " ++ kv.1 ++ " = ?", acc.2 ++ [value])
      else if opU = "LIKE" then
        .ok (acc.1 ++ " AND " ++ kv.1 ++ " LIKE ?", acc.2 ++ [.str ("%" ++ jsToString value ++ "%")])
      else if opU = "OR LIKE" then
        .ok (acc.1 ++ " OR " ++ kv.1 ++ " LIKE ?", acc.2 ++ [.str ("%" ++ jsToString value ++ "%")])
      else if opU = ">=" ∨ opU = "<=" ∨ opU = ">" ∨ opU = "<" then
        .ok (acc.1 ++ " AND " ++ kv.1 ++ " " ++ operator ++ " ?", acc.2 ++ [value])
      else if opU = "IN" then
        match value with
        | .arr [] => .ok acc
        | .arr xs =>
          .ok (acc.1 ++ " AND " ++ kv.1 ++ " IN ("
              ++ joinSep ", " (xs.map fun _ => "?") ++ ")", acc.2 ++ xs)
        | _ => .ok acc
      else if opU = "BETWEEN" then
        match value with
        | .arr [a, b] =>
          .ok (acc.1 ++ " AND " ++ kv.1 ++ " BETWEEN ? AND ?", acc.2 ++ [a, b])
        | _ => .error (.betweenRequires kv.1)
      else .error (.unsupportedOperator operator kv.1)
  else .error (.filterColumnNotAllowed kv.1)

/-- One iteration of `listDataQuery`'s HAVING loop: note the source
performs no column whitelist check here. -/
def havingStep (acc : String × List JSVal) (kv : String × Cond) : Except QErr (String × List JSVal) :=
  let value := condValue kv.2
  let operator := condOp kv.2
  let opU := jsUp operator
  if opU = "=" ∨ opU = ">" ∨ opU = "<" ∨ opU = ">=" ∨ opU = "<=" then
    .ok (acc.1 ++ " AND " ++ kv.1 ++ " " ++ operator ++ " ?", acc.2 ++ [value])
  else if opU = "BETWEEN" then
    match value with
    | .arr [a, b] =>
      .ok (acc.1 ++ " AND " ++ kv.1 ++ " BETWEEN ? AND ?", acc.2 ++ [a, b])
    | _ => .error (.havingBetweenRequires kv.1)
  else .error (.unsupportedHavingOperator operator)

/-- `listDataQuery`'s join loop: each join table is whitelist-checked
and ` {TYPE} JOIN {table} ON {on}` appended, `TYPE` defaulting to
`LEFT` and upper-cased. -/
def joinStepL (allowedTables : List String) (acc : String) (j : JoinSpec) : Except QErr String :=
  if j.table ∈ allowedTables then
    .ok (acc ++ " " ++ jsUp (jsOrD j.type "LEFT") ++ " JOIN " ++ j.table ++ " ON " ++ j.onPred)
  else .error (.joinTableNotAllowedL j.table)

/-- The whole legacy join loop. -/
def buildJoinsLegacy (allowedTables : List String) (joins : List JoinSpec) : Except QErr String :=
  joins.foldlM (joinStepL allowedTables) ""

/-- `listDataQuery`'s GROUP BY section: every grouping column must be
whitelisted, then ` GROUP BY c1, c2, …` is emitted. -/
def buildGroupClause (allowedColumns : List String) (groupBy : List String) : Except QErr String :=
  if groupBy.isEmpty then .ok ""
  else
    match groupBy.find? (fun c => ¬ (c ∈ allowedColumns)) with
    | some c => .error (.groupByNotAllowed c)
    | none => .ok (" GROUP BY " ++ joinSep ", " groupBy)

/-- `listDataQuery`'s HAVING section: prefixed with ` HAVING 1=1` only
when the `having` mapping is non-empty; values accumulate onto the
shared value list. -/
def legacyHaving (having : List (String × Cond)) (values : List JSVal) : Except QErr (String × List JSVal) :=
  if having.isEmpty then .ok ("", values)
  else having.foldlM havingStep (" HAVING 1=1", values)

/-- Arguments of `listDataQuery`. -/
structure ListParams : Type where
  table : String
  allowedTables : List String := []
  allowedColumns : List String := ["*"]
  columns : List String := ["*"]
  joins : List JoinSpec := []
  filters : List (String × Cond) := []
  orderBy : String := ""
  orderDir : String := "ASC"
  limit : Int := 10
  offset : Int := 0
  groupBy : List String := []
  having : List (String × Cond) := []

/-- The `{ dataQuery, dataValues, countQuery, countValues }` result of
`listDataQuery`. -/
structure ListResult : Type where
  dataQuery : String
  dataValues : List JSVal
  countQuery : String
  countValues : List JSVal

/-- The ORDER BY section of `listDataQuery`: emitted only when
`orderBy` is a non-empty whitelisted column, with `orderDir || 'ASC'`
appended un-validated. -/
def orderClauseL (p : ListParams) : String :=
  if p.orderBy ≠ "" ∧ p.orderBy ∈ p.allowedColumns then
    " ORDER BY " ++ p.orderBy ++ " " ++ (if p.orderDir = "" then "ASC" else p.orderDir)
  else ""

/-- Final assembly of `listDataQuery` (continued): texts and values. -/
def listAssemble (p : ListParams) (validColumns : List String) (bw : String × List JSVal) (gc : String) (hv : String × List JSVal) : ListResult :=
  let dataQuery := "SELECT " ++ joinSep ", " validColumns ++ bw.1 ++ gc ++ hv.1
      ++ orderClauseL p ++ " LIMIT ? OFFSET ?"
  let dataValues := hv.2 ++ [JSVal.num p.limit, JSVal.num p.offset]
  let cq := if gc ≠ "" ∨ hv.1 ≠ "" then
      "SELECT COUNT(*) as total FROM (SELECT 1" ++ bw.1 ++ gc ++ hv.1 ++ ") AS sub"
    else "SELECT COUNT(1) as total" ++ bw.1
  ⟨dataQuery, dataValues, cq, hv.2⟩

/-- `listDataQuery({...})` (legacy monolithic SELECT + COUNT builder). -/
def listDataQuery (p : ListParams) : Except QErr ListResult :=
  if p.table ∈ p.allowedTables then
    if p.columns.filter (validCol p.allowedColumns) = [] then .error .noValidColumns
    else
      (buildJoinsLegacy p.allowedTables p.joins).bind fun js =>
      (p.filters.foldlM (whereStep p.allowedColumns)
        (" FROM " ++ p.table ++ js ++ " WHERE 1=1", ([] : List JSVal))).bind fun bw =>
      (buildGroupClause p.allowedColumns p.groupBy).bind fun gc =>
      (legacyHaving p.having bw.2).bind fun hv =>
      .ok (listAssemble p (p.columns.filter (validCol p.allowedColumns)) bw gc hv)
  else .error (.tableNotAllowedL p.table)

/- ------------------------------------------------------------------
   UPDATE / DELETE / INSERT builders
   ------------------------------------------------------------------ -/

/-- Arguments of `updateQuery` (`where` is named `where_` because
`where` is reserved in Lean). -/
structure UpdateParams : Type where
  table : String
  allowedTables : List String := []
  allowedColumns : List String := []
  data : List (String × JSVal) := []
  where_ : List (String × JSVal) := []

/-- One iteration of `updateQuery`'s SET loop. -/
def setStep (allowedColumns : List String) (acc : List String × List JSVal) (kv : String × JSVal) : Except QErr (List String × List JSVal) :=
  if kv.1 ∈ allowedColumns then .ok (acc.1 ++ [kv.1 ++ " = ?"], acc.2 ++ [kv.2])
  else .error (.columnNotAllowedUpdate kv.1)

/-- One iteration of the equality WHERE loop shared (verbatim) by
`updateQuery` and `deleteQuery`. -/
def whereEqStep (allowedColumns : List String) (acc : String × List JSVal) (kv : String × JSVal) : Except QErr (String × List JSVal) :=
  if kv.1 ∈ allowedColumns then .ok (acc.1 ++ " AND " ++ kv.1 ++ " = ?", acc.2 ++ [kv.2])
  else .error (.whereColumnNotAllowed kv.1)

/-- `updateQuery({...})`. -/
def updateQuery (p : UpdateParams) : Except QErr SqlResult :=
  if p.table ∈ p.allowedTables then
    (p.data.foldlM (setStep p.allowedColumns) ([], [])).bind fun sv =>
    if sv.1 = [] then .error .noValidFieldsUpdate
    else
      (p.where_.foldlM (whereEqStep p.allowedColumns) (" WHERE 1=1", sv.2)).bind fun wc =>
      .ok ⟨"UPDATE " ++ p.table ++ " SET " ++ joinSep ", " sv.1 ++ wc.1, wc.2⟩
  else .error (.tableNotAllowedL p.table)

/-- Arguments of `deleteQuery`. -/
structure DeleteParams : Type where
  table : String
  allowedTables : List String := []
  allowedColumns : List String := []
  where_ : List (String × JSVal) := []

/-- `deleteQuery({...})`. -/
def deleteQuery (p : DeleteParams) : Except QErr SqlResult :=
  if p.table ∈ p.allowedTables then
    if p.where_.isEmpty then .error .deleteNeedsWhere
    else
      (p.where_.foldlM (whereEqStep p.allowedColumns) (" WHERE 1=1", [])).bind fun wc =>
      .ok ⟨"DELETE FROM " ++ p.table ++ wc.1, wc.2⟩
  else .error (.tableNotAllowedL p.table)

/-- Arguments of `insertOneQuery`. -/
structure InsertOneParams : Type where
  table : String
  allowedTables : List String := []
  allowedColumns : List String := []
  data : List (String × JSVal) := []
  onDuplicate : List String := []

/-- `insertOneQuery({...})`. -/
def insertOneQuery (p : InsertOneParams) : Except QErr SqlResult :=
  if p.table ∈ p.allowedTables then
    let keys := (p.data.map Prod.fst).filter (fun k => k ∈ p.allowedColumns)
    if keys.isEmpty then .error .noValidFieldsInsert
    else
      let columns := joinSep ", " keys
      let placeholders := joinSep ", " (keys.map fun _ => "?")
      let values := keys.map (lookupJS p.data)
      let base := "INSERT INTO " ++ p.table ++ " (" ++ columns ++ ") VALUES (" ++ placeholders ++ ")"
      let updates := (p.onDuplicate.filter (fun k => k ∈ p.allowedColumns ∧ k ∈ keys)).map
        (fun k => k ++ " = VALUES(" ++ k ++ ")")
      let query := if ¬ p.onDuplicate.isEmpty ∧ ¬ updates.isEmpty then
          base ++ " ON DUPLICATE KEY UPDATE " ++ joinSep ", " updates
        else base
      .ok ⟨query, values⟩
  else .error (.tableNotAllowedL p.table)

/-- Arguments of `insertManyQuery`. -/
structure InsertManyParams : Type where
  table : String
  allowedTables : List String := []
  allowedColumns : List String := []
  rows : List (List (String × JSVal)) := []

/-- A row's whitelist-filtered key set
(`Object.keys(r).filter(k => allowedColumns.includes(k))`). -/
def rowKeys (allowedColumns : List String) (r : List (String × JSVal)) : List String :=
  (r.map Prod.fst).filter (fun k => k ∈ allowedColumns)

/-- The per-row schema consistency check of `insertManyQuery`. -/
def rowConsistent (allowedColumns keys : List String) (r : List (String × JSVal)) : Bool :=
  let rk := rowKeys allowedColumns r
  rk.length == keys.length && rk.all (fun k => keys.contains k)

/-- `insertManyQuery({...})`. -/
def insertManyQuery (p : InsertManyParams) : Except QErr SqlResult :=
  if p.table ∈ p.allowedTables then
    match p.rows with
    | [] => .error .rowsEmpty
    | r0 :: _ =>
      let keys := rowKeys p.allowedColumns r0
      if keys.isEmpty then .error .noValidColumnsInsert
      else if p.rows.all (rowConsistent p.allowedColumns keys) then
        let columns := joinSep ", " keys
        let perRow := "(" ++ joinSep ", " (keys.map fun _ => "?") ++ ")"
        let placeholders := joinSep ", " (p.rows.map fun _ => perRow)
        let values := p.rows.flatMap (fun r => keys.map (lookupJS r))
        .ok ⟨"INSERT INTO " ++ p.table ++ " (" ++ columns ++ ") VALUES " ++ placeholders, values⟩
      else .error .inconsistentRows
  else .error (.tableNotAllowedL p.table)

/- ------------------------------------------------------------------
   Helper notions and plumbing lemmas
   ------------------------------------------------------------------ -/

/-- Whether a builder call threw (returned no statement). -/
def isErr {α : Type} : Except QErr α → Bool
  | .ok _ => false
  | .error _ => true

theorem isErr_of_error {α : Type} {x : Except QErr α} (h : ∃ e, x = Except.error e) : isErr x = true := by
  obtain ⟨e, he⟩ := h
  rw [he]
  rfl

theorem foldlM_err_of_mem {α β : Type} (f : β → α → Except QErr β) (a : α) (l : List α)
    (ha : a ∈ l) (hf : ∀ b, ∃ e, f b a = Except.error e) (b : β) :
    ∃ e, l.foldlM f b = Except.error e := by
  induction l generalizing b with
  | nil => cases ha
  | cons x xs ih =>
    rw [List.foldlM_cons]
    cases hx : f b x with
    | error e => exact ⟨e, rfl⟩
    | ok b' =>
      rcases List.mem_cons.mp ha with rfl | hmem
      · obtain ⟨e, he⟩ := hf b
        rw [he] at hx
        cases hx
      · obtain ⟨e, he⟩ := ih hmem b'
        exact ⟨e, he⟩

theorem mapM_err_of_mem {α β : Type} (f : α → Except QErr β) (a : α) (l : List α)
    (ha : a ∈ l) (hf : ∃ e, f a = Except.error e) :
    ∃ e, l.mapM f = Except.error e := by
  induction l with
  | nil => cases ha
  | cons x xs ih =>
    rw [List.mapM_cons]
    cases hx : f x with
    | error e => exact ⟨e, rfl⟩
    | ok y =>
      rcases List.mem_cons.mp ha with rfl | hmem
      · obtain ⟨e, he⟩ := hf
        rw [he] at hx
        cases hx
      · obtain ⟨e, he⟩ := ih hmem
        exact ⟨e, by show xs.mapM f >>= _ = _; rw [he]; rfl⟩

/- ------------------------------------------------------------------
   Claim C1
   ------------------------------------------------------------------ -/

/-- Claim C1 (code bug witness): the parameter-count invariant fails in
the decomposed path. For `selectQuery` over whitelisted table `t` and
column `a` with the single accepted filter
`{key: "a", operator: "BETWEEN", value: 5}`, the emitted statement
contains two `?` placeholders while the returned parameter list has
exactly one element, because `buildWhereClause` emits
`a BETWEEN ? AND ?` without validating the value and
`extractFilterValues` pushes the non-array value only once. -/
theorem spec_c1_placeholder_mismatch :
    (selectQuery { table := "t", allowedTables := ["t"], allowedColumns := ["a"],
                   filters := [⟨"a", "BETWEEN", JSVal.num 5⟩] }).map
      (fun r => (countPlaceholders r.query, r.values.length)) = Except.ok (2, 1) := by
  rfl

/- ------------------------------------------------------------------
   Claim C3
   ------------------------------------------------------------------ -/

/-- Claim C3 counterexample: `listDataQuery`'s HAVING loop does NOT
fail on a column outside `allowedColumns`. With `allowedColumns = ["a"]`
and `having = {evil: 5}`, the call succeeds and emits the fragment
`AND evil = ?` into both statements, refuting "fails (DisallowedColumn)
before emitting any clause fragment ... in listDataQuery's HAVING loop". -/
theorem spec_c3_having_unchecked :
    listDataQuery { table := "t", allowedTables := ["t"], allowedColumns := ["a"],
                    having := [("evil", Cond.bare (JSVal.num 5))] } =
      Except.ok ⟨"SELECT * FROM t WHERE 1=1 HAVING 1=1 AND evil = ? LIMIT ? OFFSET ?",
                 [JSVal.num 5, JSVal.num 10, JSVal.num 0],
                 "SELECT COUNT(*) as total FROM (SELECT 1 FROM t WHERE 1=1 HAVING 1=1 AND evil = ?) AS sub",
                 [JSVal.num 5]⟩ := by
  rfl

/- ------------------------------------------------------------------
   Claim C4
   ------------------------------------------------------------------ -/

/-- Claim C4 counterexample: `buildWhereClause` (a WHERE clause
builder) does NOT skip a condition whose value is `null`: for the
single condition `{key: "a", operator: "=", value: null}` over
whitelisted column `a` it emits the fragment `WHERE a = ?` and
`extractFilterValues` consumes a parameter slot for it, refuting
"in every WHERE clause builder ... skipped entirely". -/
theorem spec_c4_null_not_skipped :
    buildWhereClause [⟨"a", "=", JSVal.null⟩] ["a"] = Except.ok "WHERE a = ?" ∧
    extractFilterValues [⟨"a", "=", JSVal.null⟩] = [JSVal.null] := by
  exact ⟨rfl, rfl⟩

/- ------------------------------------------------------------------
   Claim C5
   ------------------------------------------------------------------ -/

/-- Claim C5 counterexample: `buildWhereClause` (a WHERE clause
builder) does NOT fail with `InvalidBetweenRange` on a BETWEEN
condition whose value is not a two-element pair: with the scalar value
`5` it succeeds and emits `WHERE a BETWEEN ? AND ?`. -/
theorem spec_c5_between_unvalidated :
    buildWhereClause [⟨"a", "BETWEEN", JSVal.num 5⟩] ["a"] =
      Except.ok "WHERE a BETWEEN ? AND ?" := by
  rfl

/- ------------------------------------------------------------------
   Claim C6
   ------------------------------------------------------------------ -/

/-- Claim C6 counterexample: in `countQuery` a HAVING list without
GROUP BY does NOT produce the wrapped `SELECT COUNT(*) (SELECT 1 …)`
form; the builder stays on the flat `SELECT COUNT(1)` path (the wrap
condition tests only `groupBy`), with the HAVING clause inlined. -/
theorem spec_c6_having_not_wrapped :
    countQuery { table := "t", allowedTables := ["t"], allowedColumns := ["a"],
                 having := [⟨"a", "=", JSVal.num 1⟩] } =
      Except.ok ⟨"SELECT COUNT(1) as total FROM t    HAVING a = ?", [JSVal.num 1]⟩ := by
  rfl

/- ------------------------------------------------------------------
   Claim C7
   ------------------------------------------------------------------ -/

/-- Claim C7 counterexample: `selectQuery` (one of the two SELECT code
paths) does NOT end its statement with `LIMIT ? OFFSET ?` and does NOT
append limit/offset as parameters: with `limit = 10, offset = 0` the
pagination is inlined as the literal text `LIMIT 0, 10` and the
parameter list stays empty (zero placeholders in the whole text). -/
theorem spec_c7_limit_inlined :
    selectQuery { table := "t", allowedTables := ["t"], allowedColumns := ["a"],
                  limit := 10, offset := 0 } =
      Except.ok ⟨"SELECT * FROM t      LIMIT 0, 10", []⟩ ∧
    (selectQuery { table := "t", allowedTables := ["t"], allowedColumns := ["a"],
                   limit := 10, offset := 0 }).map
      (fun r => countPlaceholders r.query) = Except.ok 0 := by
  exact ⟨rfl, rfl⟩

/- ------------------------------------------------------------------
   Claim C2
   ------------------------------------------------------------------ -/

theorem buildJoinsLegacy_err {aT : List String} {joins : List JoinSpec} {j : JoinSpec}
    (hj : j ∈ joins) (hb : j.table ∉ aT) :
    ∃ e, buildJoinsLegacy aT joins = Except.error e := by
  unfold buildJoinsLegacy
  exact foldlM_err_of_mem _ j joins hj
    (fun b => ⟨.joinTableNotAllowedL j.table, by simp [joinStepL, hb]⟩) ""

theorem buildJoinClause_err {aT : List String} {joins : List JoinSpec} {j : JoinSpec}
    (hj : j ∈ joins) (hb : j.table ∉ aT) :
    ∃ e, buildJoinClause joins aT = Except.error e := by
  obtain ⟨e, he⟩ := mapM_err_of_mem (joinFragD aT) j joins hj
    ⟨.joinTableNotAllowedD, by simp [joinFragD, hb]⟩
  exact ⟨e, by unfold buildJoinClause; rw [he]; rfl⟩

theorem listDataQuery_isErr_of_join (p : ListParams) {j : JoinSpec}
    (hj : j ∈ p.joins) (hb : j.table ∉ p.allowedTables) :
    isErr (listDataQuery p) = true := by
  unfold listDataQuery
  split
  · split
    · rfl
    · obtain ⟨e, he⟩ := buildJoinsLegacy_err hj hb
      rw [he]
      rfl
  · rfl

theorem selectQuery_isErr_of_join (p : SelectParams) {j : JoinSpec}
    (hj : j ∈ p.joins) (hb : j.table ∉ p.allowedTables) :
    isErr (selectQuery p) = true := by
  unfold selectQuery
  split
  · cases hc : (if "*" ∈ p.columns then (.ok "*" : Except QErr String)
        else (p.columns.mapM (fun c => sanitizeColumn c p.allowedColumns)).map
          (joinSep ", ")) with
    | error e => rfl
    | ok c =>
      cases hw : buildWhereClause p.filters p.allowedColumns with
      | error e => rfl
      | ok w =>
        obtain ⟨e, he⟩ := buildJoinClause_err hj hb
        rw [he]
        rfl
  · rfl

theorem countQuery_isErr_of_join (p : CountParams) {j : JoinSpec}
    (hj : j ∈ p.joins) (hb : j.table ∉ p.allowedTables) :
    isErr (countQuery p) = true := by
  unfold countQuery
  split
  · cases hw : buildWhereClause p.filters p.allowedColumns with
    | error e => rfl
    | ok w =>
      obtain ⟨e, he⟩ := buildJoinClause_err hj hb
      rw [he]
      rfl
  · rfl

theorem buildCountQuerySafe_isErr_of_join (p : CountParams) {j : JoinSpec}
    (hj : j ∈ p.joins) (hb : j.table ∉ p.allowedTables) :
    isErr (buildCountQuerySafe p) = true := by
  unfold buildCountQuerySafe
  split
  · cases hw : buildWhereClause p.filters p.allowedColumns with
    | error e => rfl
    | ok w =>
      obtain ⟨e, he⟩ := buildJoinClause_err hj hb
      rw [he]
      rfl
  · rfl

/-- Claim C2: for every table not in `allowedTables`, each statement
builder (`listDataQuery`, `selectQuery`, `countQuery`,
`buildCountQuerySafe`, `updateQuery`, `deleteQuery`, `insertOneQuery`,
`insertManyQuery`) fails with its DisallowedTable error and returns no
statement text, whatever the other arguments are; and whenever any join
in the join list names a table outside `allowedTables`, every builder
that accepts joins likewise returns no statement. -/
theorem spec_c2_table_whitelist
    (t : String) (aT aC cols colsD : List String)
    (joins : List JoinSpec) (filters having : List (String × Cond))
    (oB oD : String) (lim off limD offD : Int) (gB : List String)
    (fltsD havD : List Flt) (gBo : Option String) (ordD : List OrderSpec)
    (data wh : List (String × JSVal)) (onDup : List String)
    (rows : List (List (String × JSVal))) :
    (t ∉ aT →
      listDataQuery ⟨t, aT, aC, cols, joins, filters, oB, oD, lim, off, gB, having⟩
          = Except.error (.tableNotAllowedL t) ∧
      selectQuery ⟨t, aT, aC, colsD, fltsD, joins, gBo, havD, ordD, limD, offD⟩
          = Except.error .tableNotAllowedD ∧
      countQuery ⟨t, aT, aC, joins, fltsD, gBo, havD⟩ = Except.error .tableNotAllowedD ∧
      buildCountQuerySafe ⟨t, aT, aC, joins, fltsD, gBo, havD⟩ = Except.error .tableNotAllowedD ∧
      updateQuery ⟨t, aT, aC, data, wh⟩ = Except.error (.tableNotAllowedL t) ∧
      deleteQuery ⟨t, aT, aC, wh⟩ = Except.error (.tableNotAllowedL t) ∧
      insertOneQuery ⟨t, aT, aC, data, onDup⟩ = Except.error (.tableNotAllowedL t) ∧
      insertManyQuery ⟨t, aT, aC, rows⟩ = Except.error (.tableNotAllowedL t)) ∧
    (∀ j ∈ joins, j.table ∉ aT →
      isErr (listDataQuery ⟨t, aT, aC, cols, joins, filters, oB, oD, lim, off, gB, having⟩) = true ∧
      isErr (selectQuery ⟨t, aT, aC, colsD, fltsD, joins, gBo, havD, ordD, limD, offD⟩) = true ∧
      isErr (countQuery ⟨t, aT, aC, joins, fltsD, gBo, havD⟩) = true ∧
      isErr (buildCountQuerySafe ⟨t, aT, aC, joins, fltsD, gBo, havD⟩) = true) := by
  constructor
  · intro h
    refine ⟨?_, ?_, ?_, ?_, ?_, ?_, ?_, ?_⟩ <;>
      simp [listDataQuery, selectQuery, countQuery, buildCountQuerySafe,
        updateQuery, deleteQuery, insertOneQuery, insertManyQuery, h]
  · intro j hj hb
    exact ⟨listDataQuery_isErr_of_join _ hj hb, selectQuery_isErr_of_join _ hj hb,
      countQuery_isErr_of_join _ hj hb, buildCountQuerySafe_isErr_of_join _ hj hb⟩

/-- Witness for C2 at concrete inputs: the table `"x"` against
whitelist `["t"]`, and a join on table `"bad"`. -/
theorem spec_c2_table_whitelist_witness :
    listDataQuery { table := "x", allowedTables := ["t"] } = Except.error (.tableNotAllowedL "x") ∧
    insertManyQuery { table := "x", allowedTables := ["t"], rows := [[("a", JSVal.num 1)]] }
        = Except.error (.tableNotAllowedL "x") ∧
    isErr (countQuery { table := "t", allowedTables := ["t"], allowedColumns := ["a"],
                        joins := [{ table := "bad", onPred := "t.id = bad.id" }] }) = true := by
  have h1 := (spec_c2_table_whitelist "x" ["t"] ["*"] ["*"] ["*"] [] [] [] "" "ASC" 10 0 0 0 []
    [] [] none [] [] [] [] []).1 (by decide)
  have h2 := (spec_c2_table_whitelist "x" ["t"] [] ["*"] ["*"] [] [] [] "" "ASC" 10 0 0 0 []
    [] [] none [] [] [] [] [[("a", JSVal.num 1)]]).1 (by decide)
  have h3 := (spec_c2_table_whitelist "t" ["t"] ["a"] ["*"] ["*"]
    [{ table := "bad", onPred := "t.id = bad.id" }] [] [] "" "ASC" 10 0 0 0 []
    [] [] none [] [] [] [] []).2 { table := "bad", onPred := "t.id = bad.id" }
    (List.mem_singleton.mpr rfl) (by decide)
  exact ⟨h1.1, h2.2.2.2.2.2.2.2, h3.2.2.1⟩

/-- Claim C3 (amended): the DisallowedColumn check holds in three of
the four clause builders — `listDataQuery`'s WHERE loop,
`buildWhereClause` and `buildHavingClause` each fail (returning no
clause text) whenever any condition's column is outside
`allowedColumns` — but `listDataQuery`'s HAVING loop performs no
whitelist check at all: it emits ` AND key OP ?` for any key
whatsoever. -/
theorem spec_c3_column_whitelist_amended
    (aC : List String) (filters : List (String × Cond)) (fs hs : List Flt)
    (k : String) (c : Cond) (f g : Flt) (key : String) (v : JSVal)
    (acc : String × List JSVal) :
    ((k, c) ∈ filters → k ∉ aC →
      ∀ init : String × List JSVal, isErr (filters.foldlM (whereStep aC) init) = true) ∧
    (f ∈ fs → f.key ∉ aC → isErr (buildWhereClause fs aC) = true) ∧
    (g ∈ hs → g.key ∉ aC → isErr (buildHavingClause hs aC) = true) ∧
    (havingStep acc (key, Cond.bare v)
        = Except.ok (acc.1 ++ " AND " ++ key ++ " = ?", acc.2 ++ [v])) := by
  refine ⟨?_, ?_, ?_, ?_⟩
  · intro hm hk init
    exact isErr_of_error (foldlM_err_of_mem _ (k, c) filters hm
      (fun b => ⟨.filterColumnNotAllowed k, by simp [whereStep, hk]⟩) init)
  · intro hm hk
    have hne : fs.isEmpty = false := by
      cases fs
      · cases hm
      · rfl
    obtain ⟨e, he⟩ := mapM_err_of_mem (whereClauseFrag aC) f fs hm
      ⟨.columnNotAllowedWhere, by simp [whereClauseFrag, hk]⟩
    apply isErr_of_error
    exact ⟨e, by unfold buildWhereClause; rw [hne]; simp only [Bool.false_eq_true, if_false]; rw [he]; rfl⟩
  · intro hm hk
    have hne : hs.isEmpty = false := by
      cases hs
      · cases hm
      · rfl
    obtain ⟨e, he⟩ := mapM_err_of_mem (havingClauseFrag aC) g hs hm
      ⟨.columnNotAllowedHaving, by simp [havingClauseFrag, hk]⟩
    apply isErr_of_error
    exact ⟨e, by unfold buildHavingClause; rw [hne]; simp only [Bool.false_eq_true, if_false]; rw [he]; rfl⟩
  · have hUp : jsUp "=" = "=" := rfl
    simp [havingStep, condOp, condValue, hUp, String.append_assoc]

/-- Witness for the amended C3 at concrete inputs. -/
theorem spec_c3_column_whitelist_amended_witness :
    isErr (buildWhereClause [⟨"evil", "=", JSVal.num 1⟩] ["a"]) = true ∧
    isErr (buildHavingClause [⟨"evil", "=", JSVal.num 1⟩] ["a"]) = true ∧
    isErr ([(("evil" : String), Cond.bare (JSVal.num 1))].foldlM (whereStep ["a"]) ("", [])) = true ∧
    havingStep ("", []) ("evil", Cond.bare (JSVal.num 5))
        = Except.ok (" AND evil = ?", [JSVal.num 5]) := by
  have h := spec_c3_column_whitelist_amended ["a"]
    [(("evil" : String), Cond.bare (JSVal.num 1))]
    [⟨"evil", "=", JSVal.num 1⟩] [⟨"evil", "=", JSVal.num 1⟩]
    "evil" (Cond.bare (JSVal.num 1)) ⟨"evil", "=", JSVal.num 1⟩ ⟨"evil", "=", JSVal.num 1⟩
    "evil" (JSVal.num 5) ("", [])
  exact ⟨h.2.1 (List.mem_singleton.mpr rfl) (by decide),
    h.2.2.1 (List.mem_singleton.mpr rfl) (by decide),
    h.1 (List.mem_singleton.mpr rfl) (by decide) ("", []),
    h.2.2.2⟩

theorem buildWhereClause_singleton (aC : List String) (f : Flt) (s : String)
    (h : whereClauseFrag aC f = Except.ok s) :
    buildWhereClause [f] aC = Except.ok ("WHERE " ++ s) := by
  have hm : [f].mapM (whereClauseFrag aC) = Except.ok [s] := by
    rw [List.mapM_cons, h]
    rfl
  unfold buildWhereClause
  simp only [List.isEmpty_cons, Bool.false_eq_true, if_false]
  rw [hm]
  rfl

/-- Claim C4 (amended): the skip semantics belongs to the legacy WHERE
loop only. In `listDataQuery`'s WHERE loop a whitelisted condition
whose value is `undefined`/`''`/`null` is skipped entirely (no clause
text, no parameter slot), an `IN` with an empty array is likewise
skipped, and `IN` with a non-empty array emits ` AND key IN (?, ?, …)`
appending the elements in order. `buildWhereClause` skips nothing: a
`null`-valued `=` condition still emits `WHERE key = ?` with
`extractFilterValues` consuming a slot for it, and an empty `IN` array
emits `WHERE key IN ()`. -/
theorem spec_c4_skip_semantics_amended
    (aC : List String) (acc : String × List JSVal) (k : String) (c : Cond)
    (xs : List JSVal) (key : String) :
    (k ∈ aC → isSkippable (condValue c) = true →
      whereStep aC acc (k, c) = Except.ok acc) ∧
    (k ∈ aC → jsUp (condOp c) = "IN" → condValue c = JSVal.arr [] →
      whereStep aC acc (k, c) = Except.ok acc) ∧
    (k ∈ aC → jsUp (condOp c) = "IN" → condValue c = JSVal.arr xs → xs ≠ [] →
      whereStep aC acc (k, c)
        = Except.ok (acc.1 ++ " AND " ++ k ++ " IN ("
            ++ joinSep ", " (xs.map fun _ => "?") ++ ")", acc.2 ++ xs)) ∧
    (key ∈ aC →
      buildWhereClause [⟨key, "=", JSVal.null⟩] aC = Except.ok ("WHERE " ++ key ++ " = ?") ∧
      extractFilterValues [⟨key, "=", JSVal.null⟩] = [JSVal.null]) ∧
    (key ∈ aC →
      buildWhereClause [⟨key, "IN", JSVal.arr []⟩] aC = Except.ok ("WHERE " ++ key ++ " IN ()") ∧
      extractFilterValues [⟨key, "IN", JSVal.arr []⟩] = []) := by
  refine ⟨?_, ?_, ?_, ?_, ?_⟩
  · intro hk hskip
    simp [whereStep, hk, hskip]
  · intro hk hop hval
    simp [whereStep, hk, hop, hval, isSkippable]
  · intro hk hop hval hne
    cases xs with
    | nil => exact absurd rfl hne
    | cons y ys =>
      simp [whereStep, hk, hop, hval, isSkippable, String.append_assoc]
  · intro hk
    constructor
    · have hfrag : whereClauseFrag aC ⟨key, "=", JSVal.null⟩ = Except.ok (key ++ " " ++ "=" ++ " ?") := by
        simp [whereClauseFrag, hk]
      rw [buildWhereClause_singleton aC _ _ hfrag]
      simp [String.append_assoc]
    · simp [extractFilterValues, extractOne]
  · intro hk
    constructor
    · have hfrag : whereClauseFrag aC ⟨key, "IN", JSVal.arr []⟩
          = Except.ok (key ++ " IN (" ++ joinSep "," [] ++ ")") := by
        simp [whereClauseFrag, hk]
      rw [buildWhereClause_singleton aC _ _ hfrag]
      simp [joinSep, String.append_assoc]
    · simp [extractFilterValues, extractOne]

/-- Witness for the amended C4 at concrete inputs. -/
theorem spec_c4_skip_semantics_amended_witness :
    whereStep ["a"] ("", []) ("a", Cond.obj JSVal.null (some "=")) = Except.ok ("", []) ∧
    whereStep ["a"] ("", []) ("a", Cond.obj (JSVal.arr []) (some "IN")) = Except.ok ("", []) ∧
    whereStep ["a"] ("W", [JSVal.num 9])
        ("a", Cond.obj (JSVal.arr [JSVal.num 1, JSVal.num 2, JSVal.num 3]) (some "IN"))
      = Except.ok ("W AND a IN (?, ?, ?)", [JSVal.num 9, JSVal.num 1, JSVal.num 2, JSVal.num 3]) ∧
    buildWhereClause [⟨"b", "=", JSVal.null⟩] ["b"] = Except.ok "WHERE b = ?" ∧
    extractFilterValues [⟨"b", "=", JSVal.null⟩] = [JSVal.null] ∧
    buildWhereClause [⟨"b", "IN", JSVal.arr []⟩] ["b"] = Except.ok "WHERE b IN ()" ∧
    extractFilterValues [⟨"b", "IN", JSVal.arr []⟩] = [] := by
  have h1 := spec_c4_skip_semantics_amended ["a"] ("", []) "a"
    (Cond.obj JSVal.null (some "=")) [] "a"
  have h2 := spec_c4_skip_semantics_amended ["a"] ("", []) "a"
    (Cond.obj (JSVal.arr []) (some "IN")) [] "a"
  have h3 := spec_c4_skip_semantics_amended ["a"] ("W", [JSVal.num 9]) "a"
    (Cond.obj (JSVal.arr [JSVal.num 1, JSVal.num 2, JSVal.num 3]) (some "IN"))
    [JSVal.num 1, JSVal.num 2, JSVal.num 3] "a"
  have h4 := spec_c4_skip_semantics_amended ["b"] ("", []) "b"
    (Cond.bare JSVal.null) [] "b"
  refine ⟨h1.1 (by decide) rfl, h2.2.1 (by decide) rfl rfl,
    h3.2.2.1 (by decide) rfl rfl (List.cons_ne_nil _ _),
    (h4.2.2.2.1 (by decide)).1, (h4.2.2.2.1 (by decide)).2,
    (h4.2.2.2.2 (by decide)).1, (h4.2.2.2.2 (by decide)).2⟩

/-- Claim C5 (amended): BETWEEN arity validation exists only in the
legacy WHERE loop. In `listDataQuery`'s WHERE loop a whitelisted
BETWEEN condition whose value is not skipped (not
`undefined`/`''`/`null`) and is not an array of exactly two elements
fails with the InvalidBetweenRange error, and a pair `[min, max]`
emits ` AND key BETWEEN ? AND ?` pushing `min` then `max` in order.
`buildWhereClause` performs no arity validation: its BETWEEN branch
always emits `key BETWEEN ? AND ?` for a whitelisted column, and
`extractFilterValues` pushes array slots 0 and 1 (min then max for a
pair). -/
theorem spec_c5_between_amended
    (aC : List String) (acc : String × List JSVal) (k : String) (c : Cond)
    (a b : JSVal) (f : Flt) :
    (k ∈ aC → jsUp (condOp c) = "BETWEEN" → isSkippable (condValue c) = false →
      (∀ x y, condValue c ≠ JSVal.arr [x, y]) →
      whereStep aC acc (k, c) = Except.error (.betweenRequires k)) ∧
    (k ∈ aC → jsUp (condOp c) = "BETWEEN" → condValue c = JSVal.arr [a, b] →
      whereStep aC acc (k, c)
        = Except.ok (acc.1 ++ " AND " ++ k ++ " BETWEEN ? AND ?", acc.2 ++ [a, b])) ∧
    (f.key ∈ aC → f.operator = "BETWEEN" →
      whereClauseFrag aC f = Except.ok (f.key ++ " BETWEEN ? AND ?")) ∧
    (extractOne ⟨k, "BETWEEN", JSVal.arr [a, b]⟩ = [a, b]) := by
  refine ⟨?_, ?_, ?_, ?_⟩
  · intro hk hop hskip hne
    rcases hv : condValue c with _ | _ | s | n | xs
    · rw [hv] at hskip
      simp [isSkippable] at hskip
    · rw [hv] at hskip
      simp [isSkippable] at hskip
    · rw [hv] at hskip
      simp [whereStep, hk, hop, hskip, hv]
    · simp [whereStep, hk, hop, hv, isSkippable]
    · rcases xs with _ | ⟨x, _ | ⟨y, _ | ⟨z, rest⟩⟩⟩
      · simp [whereStep, hk, hop, hv, isSkippable]
      · simp [whereStep, hk, hop, hv, isSkippable]
      · exact absurd hv (hne x y)
      · simp [whereStep, hk, hop, hv, isSkippable]
  · intro hk hop hv
    simp [whereStep, hk, hop, hv, isSkippable, String.append_assoc]
  · intro hf hop
    simp [whereClauseFrag, hf, hop]
  · simp [extractOne]

/-- Witness for the amended C5 at concrete inputs. -/
theorem spec_c5_between_amended_witness :
    whereStep ["a"] ("", []) ("a", Cond.obj (JSVal.num 5) (some "BETWEEN"))
        = Except.error (.betweenRequires "a") ∧
    whereStep ["a"] ("", []) ("a", Cond.obj
        (JSVal.arr [JSVal.str "2025-01-01", JSVal.str "2025-01-31"]) (some "BETWEEN"))
      = Except.ok (" AND a BETWEEN ? AND ?", [JSVal.str "2025-01-01", JSVal.str "2025-01-31"]) ∧
    whereClauseFrag ["a"] ⟨"a", "BETWEEN", JSVal.num 5⟩ = Except.ok "a BETWEEN ? AND ?" ∧
    extractOne ⟨"a", "BETWEEN", JSVal.arr [JSVal.str "2025-01-01", JSVal.str "2025-01-31"]⟩
        = [JSVal.str "2025-01-01", JSVal.str "2025-01-31"] := by
  have h1 := spec_c5_between_amended ["a"] ("", []) "a"
    (Cond.obj (JSVal.num 5) (some "BETWEEN")) JSVal.null JSVal.null ⟨"a", "BETWEEN", JSVal.num 5⟩
  have h2 := spec_c5_between_amended ["a"] ("", []) "a"
    (Cond.obj (JSVal.arr [JSVal.str "2025-01-01", JSVal.str "2025-01-31"]) (some "BETWEEN"))
    (JSVal.str "2025-01-01") (JSVal.str "2025-01-31") ⟨"a", "BETWEEN", JSVal.num 5⟩
  exact ⟨h1.1 (by decide) rfl rfl (fun x y h => JSVal.noConfusion h),
    h2.2.1 (by decide) rfl rfl,
    h1.2.2.1 (by decide) rfl,
    h2.2.2.2⟩

/- ------------------------------------------------------------------
   Success-shape helpers for listDataQuery and countQuery
   ------------------------------------------------------------------ -/

theorem append_ne_empty_left (x y : String) (h : x.data ≠ []) : x ++ y ≠ "" := by
  intro he
  apply h
  have hd : (x ++ y).data = ("" : String).data := by rw [he]
  rw [String.data_append] at hd
  exact (List.append_eq_nil.mp hd).1

theorem havingStep_prefix {acc res : String × List JSVal} {kv : String × Cond}
    (h : havingStep acc kv = Except.ok res) : ∃ s, res.1 = acc.1 ++ s := by
  simp only [havingStep] at h
  split at h
  · injection h with h2
    refine ⟨" AND " ++ kv.1 ++ " " ++ condOp kv.2 ++ " ?", ?_⟩
    rw [← h2]
    simp [String.append_assoc]
  · split at h
    · split at h
      · injection h with h2
        refine ⟨" AND " ++ kv.1 ++ " BETWEEN ? AND ?", ?_⟩
        rw [← h2]
        simp [String.append_assoc]
      · cases h
    · cases h

theorem havingFold_prefix {l : List (String × Cond)} {acc res : String × List JSVal}
    (h : l.foldlM havingStep acc = Except.ok res) : ∃ s, res.1 = acc.1 ++ s := by
  induction l generalizing acc with
  | nil =>
    cases h
    exact ⟨"", (String.append_empty _).symm⟩
  | cons x xs ih =>
    rw [List.foldlM_cons] at h
    cases hx : havingStep acc x with
    | error e =>
      rw [hx] at h
      cases h
    | ok mid =>
      rw [hx] at h
      obtain ⟨s1, hs1⟩ := havingStep_prefix hx
      obtain ⟨s2, hs2⟩ := ih h
      exact ⟨s1 ++ s2, by rw [hs2, hs1, String.append_assoc]⟩

theorem buildGroupClause_ok {aC gB : List String} {gc : String}
    (h : buildGroupClause aC gB = Except.ok gc) :
    (gB = [] ∧ gc = "") ∨ (gB ≠ [] ∧ gc = " GROUP BY " ++ joinSep ", " gB) := by
  unfold buildGroupClause at h
  split at h
  case isTrue hE =>
    injection h with h2
    exact Or.inl ⟨List.isEmpty_iff.mp hE, h2.symm⟩
  case isFalse hE =>
    split at h
    · cases h
    · injection h with h2
      exact Or.inr ⟨fun hnil => hE (by rw [hnil]; rfl), h2.symm⟩

theorem legacyHaving_ok {having : List (String × Cond)} {vals : List JSVal}
    {hv : String × List JSVal} (h : legacyHaving having vals = Except.ok hv) :
    (having = [] ∧ hv = ("", vals)) ∨ (having ≠ [] ∧ ∃ s, hv.1 = " HAVING 1=1" ++ s) := by
  unfold legacyHaving at h
  split at h
  case isTrue hE =>
    injection h with h2
    exact Or.inl ⟨List.isEmpty_iff.mp hE, h2.symm⟩
  case isFalse hE =>
    obtain ⟨s, hs⟩ := havingFold_prefix h
    exact Or.inr ⟨fun hnil => hE (by rw [hnil]; rfl), ⟨s, hs⟩⟩

theorem listDataQuery_ok_elim {p : ListParams} {r : ListResult}
    (h : listDataQuery p = Except.ok r) :
    ∃ js bw gc hv,
      buildJoinsLegacy p.allowedTables p.joins = Except.ok js ∧
      p.filters.foldlM (whereStep p.allowedColumns)
        (" FROM " ++ p.table ++ js ++ " WHERE 1=1", ([] : List JSVal)) = Except.ok bw ∧
      buildGroupClause p.allowedColumns p.groupBy = Except.ok gc ∧
      legacyHaving p.having bw.2 = Except.ok hv ∧
      p.table ∈ p.allowedTables ∧
      p.columns.filter (validCol p.allowedColumns) ≠ [] ∧
      r = listAssemble p (p.columns.filter (validCol p.allowedColumns)) bw gc hv := by
  unfold listDataQuery at h
  split at h
  case isTrue hT =>
    split at h
    case isTrue => cases h
    case isFalse hcols =>
      cases hjs : buildJoinsLegacy p.allowedTables p.joins with
      | error e =>
        rw [hjs] at h
        cases h
      | ok js =>
        rw [hjs] at h
        simp only [Except.bind] at h
        cases hbw : p.filters.foldlM (whereStep p.allowedColumns)
            (" FROM " ++ p.table ++ js ++ " WHERE 1=1", ([] : List JSVal)) with
        | error e =>
          rw [hbw] at h
          cases h
        | ok bw =>
          rw [hbw] at h
          simp only [Except.bind] at h
          cases hgc : buildGroupClause p.allowedColumns p.groupBy with
          | error e =>
            rw [hgc] at h
            cases h
          | ok gc =>
            rw [hgc] at h
            simp only [Except.bind] at h
            cases hhv : legacyHaving p.having bw.2 with
            | error e =>
              rw [hhv] at h
              cases h
            | ok hv =>
              rw [hhv] at h
              simp only [Except.bind] at h
              injection h with h2
              refine ⟨js, bw, gc, hv, ?_, ?_, ?_, ?_, hT, hcols, h2.symm⟩ <;>
                first
                  | rfl
                  | assumption
  case isFalse => cases h

theorem countQuery_ok_elim {q : CountParams} {w : SqlResult}
    (h : countQuery q = Except.ok w) :
    ∃ wc jc gc hc,
      buildWhereClause q.filters q.allowedColumns = Except.ok wc ∧
      buildJoinClause q.joins q.allowedTables = Except.ok jc ∧
      buildGroupClauseD q.groupBy q.allowedColumns = Except.ok gc ∧
      buildHavingClause q.having q.allowedColumns = Except.ok hc ∧
      w = ⟨(if strTruthy q.groupBy then
              "SELECT COUNT(*) as total FROM (SELECT 1 "
                ++ jsTrim ("FROM " ++ q.table ++ " " ++ jc ++ " " ++ wc ++ " " ++ gc ++ " " ++ hc)
                ++ ") AS temp"
            else "SELECT COUNT(1) as total "
                ++ jsTrim ("FROM " ++ q.table ++ " " ++ jc ++ " " ++ wc ++ " " ++ gc ++ " " ++ hc)),
           extractFilterValues q.filters ++ extractFilterValues q.having⟩ := by
  unfold countQuery at h
  split at h
  case isTrue =>
    cases hwc : buildWhereClause q.filters q.allowedColumns with
    | error e =>
      rw [hwc] at h
      cases h
    | ok wc =>
      rw [hwc] at h
      simp only [Except.bind] at h
      cases hjc : buildJoinClause q.joins q.allowedTables with
      | error e =>
        rw [hjc] at h
        cases h
      | ok jc =>
        rw [hjc] at h
        simp only [Except.bind] at h
        cases hgc : buildGroupClauseD q.groupBy q.allowedColumns with
        | error e =>
          rw [hgc] at h
          cases h
        | ok gc =>
          rw [hgc] at h
          simp only [Except.bind] at h
          cases hhc : buildHavingClause q.having q.allowedColumns with
          | error e =>
            rw [hhc] at h
            cases h
          | ok hc =>
            rw [hhc] at h
            simp only [Except.bind] at h
            injection h with h2
            exact ⟨wc, jc, gc, hc, rfl, rfl, rfl, rfl, h2.symm⟩
  case isFalse => cases h

theorem countQueryShape {q : CountParams} {w : SqlResult} (h : countQuery q = Except.ok w) :
    w.values = extractFilterValues q.filters ++ extractFilterValues q.having ∧
    (strTruthy q.groupBy = false → ∃ s, w.query = "SELECT COUNT(1) as total " ++ s) ∧
    (strTruthy q.groupBy = true →
      ∃ s, w.query = "SELECT COUNT(*) as total FROM (SELECT 1 " ++ s ++ ") AS temp") := by
  obtain ⟨wc, jc, gc, hc, _, _, _, _, hw⟩ := countQuery_ok_elim h
  subst hw
  refine ⟨rfl, ?_, ?_⟩
  · intro hF
    refine ⟨jsTrim ("FROM " ++ q.table ++ " " ++ jc ++ " " ++ wc ++ " " ++ gc ++ " " ++ hc), ?_⟩
    simp [hF]
  · intro hT
    refine ⟨jsTrim ("FROM " ++ q.table ++ " " ++ jc ++ " " ++ wc ++ " " ++ gc ++ " " ++ hc), ?_⟩
    simp [hT]

/-- Claim C6 (amended): in `listDataQuery` the count statement is the
flat `SELECT COUNT(1)` over the same base text as the data statement
when both `groupBy` and `having` are empty, and wraps a `SELECT 1`
subquery when either is non-empty; its count parameters are exactly the
data parameters without the trailing limit/offset pair. In the
decomposed `countQuery`/`buildCountQuerySafe`, however, the wrap
condition tests only `groupBy`: with a truthy `groupBy` the statement
wraps, and otherwise it stays flat even when `having` is non-empty;
the count values are the WHERE values followed by the HAVING values,
and never include limit or offset. -/
theorem spec_c6_count_shape_amended (p : ListParams) (q : CountParams)
    (r : ListResult) (w : SqlResult) :
    (listDataQuery p = Except.ok r →
      r.dataValues = r.countValues ++ [JSVal.num p.limit, JSVal.num p.offset] ∧
      (p.groupBy = [] → p.having = [] →
        ∃ base ord, r.countQuery = "SELECT COUNT(1) as total" ++ base ∧
          r.dataQuery = "SELECT " ++ joinSep ", " (p.columns.filter (validCol p.allowedColumns))
            ++ base ++ ord ++ " LIMIT ? OFFSET ?") ∧
      (p.groupBy ≠ [] ∨ p.having ≠ [] →
        ∃ mid, r.countQuery = "SELECT COUNT(*) as total FROM (SELECT 1" ++ mid ++ ") AS sub")) ∧
    (countQuery q = Except.ok w →
      w.values = extractFilterValues q.filters ++ extractFilterValues q.having ∧
      (strTruthy q.groupBy = false → ∃ s, w.query = "SELECT COUNT(1) as total " ++ s) ∧
      (strTruthy q.groupBy = true →
        ∃ s, w.query = "SELECT COUNT(*) as total FROM (SELECT 1 " ++ s ++ ") AS temp")) ∧
    (buildCountQuerySafe q = Except.ok w →
      w.values = extractFilterValues q.filters ++ extractFilterValues q.having ∧
      (strTruthy q.groupBy = false → ∃ s, w.query = "SELECT COUNT(1) as total " ++ s) ∧
      (strTruthy q.groupBy = true →
        ∃ s, w.query = "SELECT COUNT(*) as total FROM (SELECT 1 " ++ s ++ ") AS temp")) := by
  refine ⟨?_, ?_, ?_⟩
  · intro h
    obtain ⟨js, bw, gc, hv, hjs, hbw, hgc, hhv, hT, hcols, hr⟩ := listDataQuery_ok_elim h
    subst hr
    refine ⟨by simp [listAssemble], ?_, ?_⟩
    · intro hgB hhav
      have hgc' : gc = "" := by
        rcases buildGroupClause_ok hgc with ⟨_, h2⟩ | ⟨hne, _⟩
        · exact h2
        · exact absurd hgB hne
      have hhv' : hv = ("", bw.2) := by
        rcases legacyHaving_ok hhv with ⟨_, h2⟩ | ⟨hne, _⟩
        · exact h2
        · exact absurd hhav hne
      subst hgc'
      subst hhv'
      refine ⟨bw.1, orderClauseL p, ?_, ?_⟩
      · simp [listAssemble]
      · simp [listAssemble, String.append_assoc]
    · intro hor
      have hcond : gc ≠ "" ∨ hv.1 ≠ "" := by
        rcases hor with hgB | hhav
        · rcases buildGroupClause_ok hgc with ⟨h1, _⟩ | ⟨_, h2⟩
          · exact absurd h1 hgB
          · exact Or.inl (by rw [h2]; exact append_ne_empty_left _ _ (by decide))
        · rcases legacyHaving_ok hhv with ⟨h1, _⟩ | ⟨_, s, h2⟩
          · exact absurd h1 hhav
          · exact Or.inr (by rw [h2]; exact append_ne_empty_left _ _ (by decide))
      refine ⟨bw.1 ++ gc ++ hv.1, ?_⟩
      simp only [listAssemble]
      rw [if_pos hcond]
      simp [String.append_assoc]
  · intro h
    exact countQueryShape h
  · intro h
    have he : buildCountQuerySafe q = countQuery q := rfl
    rw [he] at h
    exact countQueryShape h

/-- Witness for the amended C6 at concrete inputs: a call with HAVING
but no GROUP BY on each path. -/
theorem spec_c6_count_shape_amended_witness :
    ∃ r w,
      listDataQuery { table := "t", allowedTables := ["t"], allowedColumns := ["a"],
                      having := [(("a" : String), Cond.bare (JSVal.num 1))] } = Except.ok r ∧
      r.dataValues = r.countValues ++ [JSVal.num 10, JSVal.num 0] ∧
      (∃ mid, r.countQuery = "SELECT COUNT(*) as total FROM (SELECT 1" ++ mid ++ ") AS sub") ∧
      countQuery { table := "t", allowedTables := ["t"], allowedColumns := ["a"],
                   having := [⟨"a", "=", JSVal.num 1⟩] } = Except.ok w ∧
      (∃ s, w.query = "SELECT COUNT(1) as total " ++ s) := by
  have h := spec_c6_count_shape_amended
    { table := "t", allowedTables := ["t"], allowedColumns := ["a"],
      having := [(("a" : String), Cond.bare (JSVal.num 1))] }
    { table := "t", allowedTables := ["t"], allowedColumns := ["a"],
      having := [⟨"a", "=", JSVal.num 1⟩] }
    ⟨"SELECT * FROM t WHERE 1=1 HAVING 1=1 AND a = ? LIMIT ? OFFSET ?",
      [JSVal.num 1, JSVal.num 10, JSVal.num 0],
      "SELECT COUNT(*) as total FROM (SELECT 1 FROM t WHERE 1=1 HAVING 1=1 AND a = ?) AS sub",
      [JSVal.num 1]⟩
    ⟨"SELECT COUNT(1) as total FROM t    HAVING a = ?", [JSVal.num 1]⟩
  refine ⟨⟨"SELECT * FROM t WHERE 1=1 HAVING 1=1 AND a = ? LIMIT ? OFFSET ?",
      [JSVal.num 1, JSVal.num 10, JSVal.num 0],
      "SELECT COUNT(*) as total FROM (SELECT 1 FROM t WHERE 1=1 HAVING 1=1 AND a = ?) AS sub",
      [JSVal.num 1]⟩,
    ⟨"SELECT COUNT(1) as total FROM t    HAVING a = ?", [JSVal.num 1]⟩,
    rfl, ?_, ?_, rfl, ?_⟩
  · exact (h.1 rfl).1
  · exact (h.1 rfl).2.2 (Or.inr (List.cons_ne_nil _ _))
  · exact (h.2.1 rfl).2.1 rfl

theorem selectQuery_ok_elim {sp : SelectParams} {v : SqlResult}
    (h : selectQuery sp = Except.ok v) :
    ∃ colList joinClause whereClause groupClause havingClause orderClause,
      v = selectAssemble sp colList joinClause whereClause groupClause havingClause orderClause := by
  unfold selectQuery at h
  split at h
  case isTrue =>
    cases h1 : (if "*" ∈ sp.columns then (Except.ok "*" : Except QErr String)
        else (sp.columns.mapM (fun c => sanitizeColumn c sp.allowedColumns)).map
          (joinSep ", ")) with
    | error e =>
      rw [h1] at h
      cases h
    | ok colList =>
      rw [h1] at h
      simp only [Except.bind] at h
      cases h2 : buildWhereClause sp.filters sp.allowedColumns with
      | error e =>
        rw [h2] at h
        cases h
      | ok wc =>
        rw [h2] at h
        simp only [Except.bind] at h
        cases h3 : buildJoinClause sp.joins sp.allowedTables with
        | error e =>
          rw [h3] at h
          cases h
        | ok jc =>
          rw [h3] at h
          simp only [Except.bind] at h
          cases h4 : buildGroupClauseD sp.groupBy sp.allowedColumns with
          | error e =>
            rw [h4] at h
            cases h
          | ok gc =>
            rw [h4] at h
            simp only [Except.bind] at h
            cases h5 : buildHavingClause sp.having sp.allowedColumns with
            | error e =>
              rw [h5] at h
              cases h
            | ok hc =>
              rw [h5] at h
              simp only [Except.bind] at h
              cases h6 : (if ¬ sp.orderBy.isEmpty then
                  (sp.orderBy.mapM (fun o => (sanitizeColumn o.column sp.allowedColumns).map
                    (fun c => c ++ " " ++ o.dir))).map
                    (fun os => "ORDER BY " ++ joinSep ", " os)
                else (.ok "" : Except QErr String)) with
              | error e =>
                rw [h6] at h
                cases h
              | ok oc =>
                rw [h6] at h
                simp only [Except.bind] at h
                injection h with h7
                exact ⟨colList, jc, wc, gc, hc, oc, h7.symm⟩
  case isFalse => cases h

/-- Claim C7 (amended): only `listDataQuery`'s data statement ends with
` LIMIT ? OFFSET ?`, with the numeric limit and offset appended as the
final two parameters after all WHERE/HAVING parameters (the count
values being exactly the preceding parameters). `selectQuery` never
parameterizes pagination: its value list holds only the filter and
having values, and its statement text inlines
`LIMIT <offset>, <limit>` literally when `limit` is non-zero and omits
the clause when `limit` is zero. -/
theorem spec_c7_limit_offset_amended (p : ListParams) (sp : SelectParams)
    (r : ListResult) (v : SqlResult) :
    (listDataQuery p = Except.ok r →
      (∃ s, r.dataQuery = s ++ " LIMIT ? OFFSET ?") ∧
      ∃ vs, r.dataValues = vs ++ [JSVal.num p.limit, JSVal.num p.offset] ∧ r.countValues = vs) ∧
    (selectQuery sp = Except.ok v →
      v.values = extractFilterValues sp.filters ++ extractFilterValues sp.having ∧
      ∃ pre, v.query = jsTrim (pre ++ " "
        ++ (if sp.limit ≠ 0 then "LIMIT " ++ toString (jsOr0 sp.offset) ++ ", " ++ toString sp.limit
            else ""))) := by
  constructor
  · intro h
    obtain ⟨js, bw, gc, hv, hjs, hbw, hgc, hhv, hT, hcols, hr⟩ := listDataQuery_ok_elim h
    subst hr
    constructor
    · refine ⟨"SELECT " ++ joinSep ", " (p.columns.filter (validCol p.allowedColumns))
        ++ bw.1 ++ gc ++ hv.1 ++ orderClauseL p, ?_⟩
      simp [listAssemble]
    · exact ⟨hv.2, by simp [listAssemble], by simp [listAssemble]⟩
  · intro h
    obtain ⟨cl, jc, wc, gc, hc, oc, hv⟩ := selectQuery_ok_elim h
    subst hv
    constructor
    · rfl
    · refine ⟨"SELECT " ++ cl ++ " FROM " ++ sp.table ++ " " ++ jc ++ " " ++ wc ++ " " ++ gc
        ++ " " ++ hc ++ " " ++ oc, ?_⟩
      simp [selectAssemble, String.append_assoc]

/-- Witness for the amended C7 at concrete inputs. -/
theorem spec_c7_limit_offset_amended_witness :
    ∃ r v,
      listDataQuery { table := "t", allowedTables := ["t"], allowedColumns := ["a"] }
          = Except.ok r ∧
      (∃ s, r.dataQuery = s ++ " LIMIT ? OFFSET ?") ∧
      r.dataValues = r.countValues ++ [JSVal.num 10, JSVal.num 0] ∧
      selectQuery { table := "t", allowedTables := ["t"], allowedColumns := ["a"], limit := 10 }
          = Except.ok v ∧
      v.values = [] := by
  have h := spec_c7_limit_offset_amended
    { table := "t", allowedTables := ["t"], allowedColumns := ["a"] }
    { table := "t", allowedTables := ["t"], allowedColumns := ["a"], limit := 10 }
    ⟨"SELECT * FROM t WHERE 1=1 LIMIT ? OFFSET ?", [JSVal.num 10, JSVal.num 0],
      "SELECT COUNT(1) as total FROM t WHERE 1=1", []⟩
    ⟨"SELECT * FROM t      LIMIT 0, 10", []⟩
  refine ⟨⟨"SELECT * FROM t WHERE 1=1 LIMIT ? OFFSET ?", [JSVal.num 10, JSVal.num 0],
      "SELECT COUNT(1) as total FROM t WHERE 1=1", []⟩,
    ⟨"SELECT * FROM t      LIMIT 0, 10", []⟩, rfl, (h.1 rfl).1, ?_, rfl, ?_⟩
  · obtain ⟨vs, h1, h2⟩ := (h.1 rfl).2
    rw [h1, h2]
  · exact (h.2 rfl).1

/- ------------------------------------------------------------------
   Claim C8
   ------------------------------------------------------------------ -/

/-- The ` AND key = ?` fragments emitted by the equality WHERE loop,
one per entry in mapping order. -/
def andEqChain : List (String × JSVal) → String
  | [] => ""
  | kv :: rest => " AND " ++ kv.1 ++ " = ?" ++ andEqChain rest

theorem whereEqFold_ok (aC : List String) (l : List (String × JSVal))
    (h : ∀ kv ∈ l, kv.1 ∈ aC) (acc : String × List JSVal) :
    l.foldlM (whereEqStep aC) acc
      = Except.ok (acc.1 ++ andEqChain l, acc.2 ++ l.map Prod.snd) := by
  induction l generalizing acc with
  | nil =>
    simp only [List.foldlM_nil, andEqChain, String.append_empty, List.map_nil, List.append_nil]
    rfl
  | cons x xs ih =>
    rw [List.foldlM_cons]
    have hx : x.1 ∈ aC := h x (List.mem_cons_self x xs)
    rw [show whereEqStep aC acc x
        = Except.ok (acc.1 ++ " AND " ++ x.1 ++ " = ?", acc.2 ++ [x.2]) from by
      simp [whereEqStep, hx]]
    show xs.foldlM (whereEqStep aC) _ = _
    rw [ih (fun kv hkv => h kv (List.mem_cons_of_mem x hkv))]
    simp [andEqChain, String.append_assoc]

/-- Claim C8: `deleteQuery` with an empty `where` mapping fails with
the MissingWhereClause error and constructs no statement; with a
non-empty `where` of whitelisted columns it emits
`DELETE FROM <table> WHERE 1=1` followed by one ` AND key = ?` per
entry in mapping order, pushing the values in the same order. -/
theorem spec_c8_delete_query (t : String) (aT aC : List String)
    (wh : List (String × JSVal)) (hT : t ∈ aT) :
    deleteQuery ⟨t, aT, aC, []⟩ = Except.error .deleteNeedsWhere ∧
    ((∀ kv ∈ wh, kv.1 ∈ aC) → wh ≠ [] →
      deleteQuery ⟨t, aT, aC, wh⟩
        = Except.ok ⟨"DELETE FROM " ++ t ++ " WHERE 1=1" ++ andEqChain wh,
            wh.map Prod.snd⟩) := by
  constructor
  · simp [deleteQuery, hT]
  · intro hall hne
    have hE : wh.isEmpty = false := by
      cases wh
      · exact absurd rfl hne
      · rfl
    unfold deleteQuery
    rw [if_pos hT]
    rw [hE]
    simp only [Bool.false_eq_true, if_false]
    rw [whereEqFold_ok aC wh hall (" WHERE 1=1", [])]
    show Except.ok _ = _
    simp [String.append_assoc]

/-- Witness for C8: empty `where` and the claim's `where = {id: 5}`
example against table `t`. -/
theorem spec_c8_delete_query_witness :
    deleteQuery ⟨"t", ["t"], ["id"], []⟩ = Except.error .deleteNeedsWhere ∧
    deleteQuery ⟨"t", ["t"], ["id"], [("id", JSVal.num 5)]⟩
      = Except.ok ⟨"DELETE FROM t WHERE 1=1 AND id = ?", [JSVal.num 5]⟩ := by
  have h := spec_c8_delete_query "t" ["t"] ["id"] [("id", JSVal.num 5)] (by decide)
  refine ⟨h.1, ?_⟩
  have h2 := h.2 (by
    intro kv hkv
    rcases List.mem_singleton.mp hkv with rfl
    decide) (List.cons_ne_nil _ _)
  exact h2

/- ------------------------------------------------------------------
   Claim C9
   ------------------------------------------------------------------ -/

/-- Claim C9: `insertManyQuery` derives the canonical column set from
the first row filtered by `allowedColumns`, fails with
NoInsertableColumns when that set is empty, fails with
InconsistentRowSchema when any row's own whitelist-filtered key set
differs in size or membership from the canonical set, and otherwise
emits one `(?, …)` group per row with the values flattened row-major
in canonical key order; with the claim's two example rows it yields
`VALUES (?, ?), (?, ?)` and params `[1,2,3,4]`, and a third row
missing key `b` fails. -/
theorem spec_c9_insert_many (t : String) (aT aC : List String)
    (r0 : List (String × JSVal)) (rest : List (List (String × JSVal))) (hT : t ∈ aT) :
    (rowKeys aC r0 = [] →
      insertManyQuery ⟨t, aT, aC, r0 :: rest⟩ = Except.error .noValidColumnsInsert) ∧
    (rowKeys aC r0 ≠ [] →
      ∀ rr ∈ r0 :: rest, rowConsistent aC (rowKeys aC r0) rr = false →
        insertManyQuery ⟨t, aT, aC, r0 :: rest⟩ = Except.error .inconsistentRows) ∧
    ((∀ rr ∈ r0 :: rest, rowConsistent aC (rowKeys aC r0) rr = true) → rowKeys aC r0 ≠ [] →
      insertManyQuery ⟨t, aT, aC, r0 :: rest⟩
        = Except.ok ⟨"INSERT INTO " ++ t ++ " (" ++ joinSep ", " (rowKeys aC r0) ++ ") VALUES "
            ++ joinSep ", " ((r0 :: rest).map fun _ =>
                "(" ++ joinSep ", " ((rowKeys aC r0).map fun _ => "?") ++ ")"),
            (r0 :: rest).flatMap (fun rr => (rowKeys aC r0).map (lookupJS rr))⟩) ∧
    insertManyQuery ⟨"t", ["t"], ["a", "b"],
        [[("a", JSVal.num 1), ("b", JSVal.num 2)],
         [("a", JSVal.num 3), ("b", JSVal.num 4)]]⟩
      = Except.ok ⟨"INSERT INTO t (a, b) VALUES (?, ?), (?, ?)",
          [JSVal.num 1, JSVal.num 2, JSVal.num 3, JSVal.num 4]⟩ ∧
    insertManyQuery ⟨"t", ["t"], ["a", "b"],
        [[("a", JSVal.num 1), ("b", JSVal.num 2)], [("a", JSVal.num 5)]]⟩
      = Except.error .inconsistentRows := by
  refine ⟨?_, ?_, ?_, rfl, rfl⟩
  · intro h0
    simp [insertManyQuery, hT, h0]
  · intro h0 rr hmem hbad
    have hE : (rowKeys aC r0).isEmpty = false := by
      cases hk : rowKeys aC r0
      · exact absurd hk h0
      · rfl
    have hall : ((r0 :: rest).all (rowConsistent aC (rowKeys aC r0))) = false := by
      cases hall : ((r0 :: rest).all (rowConsistent aC (rowKeys aC r0)))
      · rfl
      · exact absurd (List.all_eq_true.mp hall rr hmem) (by rw [hbad]; exact Bool.false_ne_true)
    simp [insertManyQuery, hT, hE, hall]
  · intro hall h0
    have hE : (rowKeys aC r0).isEmpty = false := by
      cases hk : rowKeys aC r0
      · exact absurd hk h0
      · rfl
    have hA : ((r0 :: rest).all (rowConsistent aC (rowKeys aC r0))) = true :=
      List.all_eq_true.mpr hall
    simp [insertManyQuery, hT, hE, hA]

/-- Witness for C9 at the claim's concrete example. -/
theorem spec_c9_insert_many_witness :
    insertManyQuery ⟨"t", ["t"], ["a", "b"],
        [[("a", JSVal.num 1), ("b", JSVal.num 2)], [("a", JSVal.num 3), ("b", JSVal.num 4)]]⟩
      = Except.ok ⟨"INSERT INTO t (a, b) VALUES (?, ?), (?, ?)",
          [JSVal.num 1, JSVal.num 2, JSVal.num 3, JSVal.num 4]⟩ ∧
    insertManyQuery ⟨"t", ["t"], ["a", "b"],
        [[("a", JSVal.num 1), ("b", JSVal.num 2)], [("a", JSVal.num 5)]]⟩
      = Except.error .inconsistentRows := by
  have h := spec_c9_insert_many "t" ["t"] ["a", "b"]
    [("a", JSVal.num 1), ("b", JSVal.num 2)]
    [[("a", JSVal.num 3), ("b", JSVal.num 4)]] (by decide)
  refine ⟨?_, h.2.2.2.2⟩
  have h3 := h.2.2.1 (by decide) (by decide)
  exact h3

/- ------------------------------------------------------------------
   Claim C10
   ------------------------------------------------------------------ -/

theorem foldlM_error_pred {α β : Type} (P : QErr → Prop) (f : β → α → Except QErr β)
    (hstep : ∀ b x e', f b x = Except.error e' → P e')
    (l : List α) (b : β) (e : QErr) (h : l.foldlM f b = Except.error e) : P e := by
  induction l generalizing b with
  | nil => cases h
  | cons x xs ih =>
    rw [List.foldlM_cons] at h
    cases hx : f b x with
    | error e' =>
      rw [hx] at h
      injection h with h2
      exact h2 ▸ hstep b x e' hx
    | ok b' =>
      rw [hx] at h
      exact ih b' h

theorem joinStepL_error_ne {aT : List String} {acc : String} {j : JoinSpec} {e : QErr}
    (h : joinStepL aT acc j = Except.error e) : e ≠ QErr.noValidColumns := by
  simp only [joinStepL] at h
  split at h
  all_goals cases h
  all_goals intro hc
  all_goals cases hc

theorem whereStep_error_ne {aC : List String} {acc : String × List JSVal}
    {kv : String × Cond} {e : QErr}
    (h : whereStep aC acc kv = Except.error e) : e ≠ QErr.noValidColumns := by
  simp only [whereStep] at h
  repeat' split at h
  all_goals cases h
  all_goals intro hc
  all_goals cases hc

theorem havingStep_error_ne {acc : String × List JSVal} {kv : String × Cond} {e : QErr}
    (h : havingStep acc kv = Except.error e) : e ≠ QErr.noValidColumns := by
  simp only [havingStep] at h
  repeat' split at h
  all_goals cases h
  all_goals intro hc
  all_goals cases hc

theorem buildGroupClause_error_ne {aC gB : List String} {e : QErr}
    (h : buildGroupClause aC gB = Except.error e) : e ≠ QErr.noValidColumns := by
  simp only [buildGroupClause] at h
  repeat' split at h
  all_goals cases h
  all_goals intro hc
  all_goals cases hc

theorem legacyHaving_error_ne {having : List (String × Cond)} {vals : List JSVal} {e : QErr}
    (h : legacyHaving having vals = Except.error e) : e ≠ QErr.noValidColumns := by
  simp only [legacyHaving] at h
  split at h
  · cases h
  · exact foldlM_error_pred _ havingStep (fun b x e' hx => havingStep_error_ne hx) _ _ _ h

theorem buildJoinsLegacy_error_ne {aT : List String} {joins : List JoinSpec} {e : QErr}
    (h : buildJoinsLegacy aT joins = Except.error e) : e ≠ QErr.noValidColumns := by
  simp only [buildJoinsLegacy] at h
  exact foldlM_error_pred _ (joinStepL aT) (fun b x e' hx => joinStepL_error_ne hx) _ _ _ h

/-- Claim C10: `listDataQuery` does not fail when some requested
select-list columns fall outside the whitelist. A select column is
kept exactly when it is `*`, equals an `allowedColumns` entry
verbatim, or is an ` AS `-aliased expression whose prefix before the
first ` AS ` is an allowed entry; all other columns are silently
dropped. The call fails with the no-valid-columns error precisely when
no column survives the filter, and on success the emitted select list
is the survivors joined in input order. -/
theorem spec_c10_select_column_filtering (p : ListParams) (col : String)
    (hT : p.table ∈ p.allowedTables) :
    (validCol p.allowedColumns col = true ↔
      col = "*" ∨ col ∈ p.allowedColumns ∨
        (hasAS col = true ∧ asHead col ∈ p.allowedColumns)) ∧
    (listDataQuery p = Except.error .noValidColumns ↔
      p.columns.filter (validCol p.allowedColumns) = []) ∧
    (∀ r, listDataQuery p = Except.ok r →
      ∃ restQ, r.dataQuery
        = "SELECT " ++ joinSep ", " (p.columns.filter (validCol p.allowedColumns)) ++ restQ) := by
  refine ⟨?_, ⟨?_, ?_⟩, ?_⟩
  · constructor
    · intro h
      simp only [validCol, Bool.or_eq_true, beq_iff_eq, List.any_eq_true,
        Bool.and_eq_true, List.contains, List.elem_iff] at h
      rcases h with h | ⟨al, hal, h | ⟨h1, h2⟩⟩
      · exact Or.inl h
      · exact Or.inr (Or.inl (h ▸ hal))
      · exact Or.inr (Or.inr ⟨h1, h2⟩)
    · intro h
      simp only [validCol, Bool.or_eq_true, beq_iff_eq, List.any_eq_true,
        Bool.and_eq_true, List.contains, List.elem_iff]
      rcases h with h | h | ⟨h1, h2⟩
      · exact Or.inl h
      · exact Or.inr ⟨col, h, Or.inl rfl⟩
      · exact Or.inr ⟨asHead col, h2, Or.inr ⟨h1, h2⟩⟩
  · intro h
    by_contra hne
    unfold listDataQuery at h
    rw [if_pos hT, if_neg hne] at h
    cases hjs : buildJoinsLegacy p.allowedTables p.joins with
    | error e =>
      rw [hjs] at h
      simp only [Except.bind] at h
      injection h with h2
      exact buildJoinsLegacy_error_ne hjs h2
    | ok js =>
      rw [hjs] at h
      simp only [Except.bind] at h
      cases hbw : p.filters.foldlM (whereStep p.allowedColumns)
          (" FROM " ++ p.table ++ js ++ " WHERE 1=1", ([] : List JSVal)) with
      | error e =>
        rw [hbw] at h
        simp only [Except.bind] at h
        injection h with h2
        exact foldlM_error_pred _ (whereStep p.allowedColumns)
          (fun b x e' hx => whereStep_error_ne hx) _ _ _ hbw h2
      | ok bw =>
        rw [hbw] at h
        simp only [Except.bind] at h
        cases hgc : buildGroupClause p.allowedColumns p.groupBy with
        | error e =>
          rw [hgc] at h
          simp only [Except.bind] at h
          injection h with h2
          exact buildGroupClause_error_ne hgc h2
        | ok gc =>
          rw [hgc] at h
          simp only [Except.bind] at h
          cases hhv : legacyHaving p.having bw.2 with
          | error e =>
            rw [hhv] at h
            simp only [Except.bind] at h
            injection h with h2
            exact legacyHaving_error_ne hhv h2
          | ok hv =>
            rw [hhv] at h
            simp only [Except.bind] at h
            cases h
  · intro h
    simp [listDataQuery, hT, h]
  · intro r h
    obtain ⟨js, bw, gc, hv, hjs, hbw, hgc, hhv, hT2, hcols, hr⟩ := listDataQuery_ok_elim h
    subst hr
    refine ⟨bw.1 ++ gc ++ hv.1 ++ orderClauseL p ++ " LIMIT ? OFFSET ?", ?_⟩
    simp [listAssemble, String.append_assoc]

/-- Witness for C10: columns `["a", "bogus", "x AS y", "a AS al"]`
against whitelist `["a"]` keep exactly `a` and `a AS al`, and the call
succeeds. -/
theorem spec_c10_select_column_filtering_witness :
    (validCol ["a"] "a AS al" = true ↔
      "a AS al" = "*" ∨ "a AS al" ∈ ["a"] ∨
        (hasAS "a AS al" = true ∧ asHead "a AS al" ∈ ["a"])) ∧
    (listDataQuery ⟨"t", ["t"], ["a"], ["a", "bogus", "x AS y", "a AS al"],
        [], [], "", "ASC", 10, 0, [], []⟩ = Except.error .noValidColumns ↔
      ["a", "bogus", "x AS y", "a AS al"].filter (validCol ["a"]) = []) ∧
    (∃ restQ, "SELECT a, a AS al FROM t WHERE 1=1 LIMIT ? OFFSET ?"
      = "SELECT " ++ joinSep ", " (["a", "bogus", "x AS y", "a AS al"].filter (validCol ["a"]))
          ++ restQ) := by
  have h := spec_c10_select_column_filtering
    ⟨"t", ["t"], ["a"], ["a", "bogus", "x AS y", "a AS al"], [], [], "", "ASC", 10, 0, [], []⟩
    "a AS al" (by decide)
  refine ⟨h.1, h.2.1, ?_⟩
  exact h.2.2 ⟨"SELECT a, a AS al FROM t WHERE 1=1 LIMIT ? OFFSET ?",
    [JSVal.num 10, JSVal.num 0], "SELECT COUNT(1) as total FROM t WHERE 1=1",
    []⟩ rfl
